import Mathlib

/-!
Verification of `src/auto_anonymize/anonymize_vid.py` (AutoAnonymize).

The orchestrator `anonymize_vid` is shallowly embedded below.  External
collaborators (the two face detectors, `embed_face`, `recognize_face`,
`rgb_read`, the per-region blur/marker primitives, and the frames the video
capture yields) are abstract parameters collected in `Env`; the orchestrator's
own control flow, validation, gallery building, per-frame loop and resource
handling are translated from the source.  Observable actions (warnings,
embedder invocations, matcher invocations, resource releases) are recorded in
an event trace so that claims about them can be stated.
-/

namespace AutoAnonymize

/-- One pixel: three colour channels, in the channel order of the current
colour space (BGR as read from the capture, RGB after `to_rgb`). -/
structure Pix where
  ch1 : Nat
  ch2 : Nat
  ch3 : Nat
deriving DecidableEq

/-- A raster frame: rows of pixels. -/
abbrev Frame := List (List Pix)

/-- A detected face bounding box in frame pixel coordinates. -/
structure Region where
  top : Nat
  right : Nat
  bottom : Nat
  left : Nat
deriving DecidableEq

/-- A face descriptor produced by the embedder; only its identity matters to
the orchestrator, so it is abstracted as a number. -/
abbrev Desc := Nat

/-- Observable actions of one run, in program order. -/
inductive Event where
  | openCap
  | mkdirDst
  | openWriter
  | warnEmptyGallery
  | embedGallery (numRegions : Nat)
  | embedLoop (numRegions : Nat)
  | recognizeCall (gallery : List Desc)
  | releaseCap
  | releaseWriter
deriving DecidableEq

/-- Reversing the channel order of one pixel (BGR and RGB swap). -/
def swapChannels (p : Pix) : Pix := ⟨p.ch3, p.ch2, p.ch1⟩

/-- Modelled from the spec: `to_rgb` (from `pkg_utils`, which is not under
`src/`) is the Color-Space Adapter converting a captured frame from its native
channel order to the RGB order required by the models — a per-pixel channel
reversal. -/
def to_rgb (f : Frame) : Frame := f.map (fun row => row.map swapChannels)

/-- Modelled from the spec: `cv2.cvtColor(rgb, cv2.COLOR_RGB2BGR)` (external
collaborator), the reverse direction of the Color-Space Adapter — the same
per-pixel channel reversal. -/
def rgb2bgr (f : Frame) : Frame := f.map (fun row => row.map swapChannels)

/-- Python `s.split(".")` on the character list: split at every dot. -/
def splitDotAux : List Char → List Char → List (List Char)
  | [], acc => [acc.reverse]
  | c :: rest, acc =>
    if c = '.' then acc.reverse :: splitDotAux rest [] else splitDotAux rest (c :: acc)

/-- Python `s.split(".")[-1]`: the piece after the last dot (the whole string
when no dot occurs). -/
def rawExt (s : String) : String := ⟨(splitDotAux s.data []).getLastD []⟩

/-- Python `s.split(".")[-1].lower()`: the raw extension, lower-cased. -/
def fileExt (s : String) : String := ⟨((splitDotAux s.data []).getLastD []).map Char.toLower⟩

def movExt : String := "mov"

def mp4Ext : String := "mp4"

def srcErrMsg : String := "src is not a valid file."

def dstErrMsg : String := "Output file format must be mp4."

def jpgSuffix : String := ".jpg"

/-- `Path(known_faces_loc).rglob("*.jpg")` applied to the directory's
recursive file listing: a path's final component matches the case-sensitive
POSIX glob `*.jpg` exactly when the path ends in the lowercase suffix
`.jpg`. -/
def jpgList (files : List String) : List String :=
  files.filter (fun f => jpgSuffix.data.isSuffixOf f.data)

/-- The external collaborators of the orchestrator, plus the frames the video
capture yields in order:
`detectRet` and `detectHc` are the two detector variants; `embed` is
`embed_face`; `recognize` is `recognize_face`; `rgbRead` is `rgb_read`;
`blurOne` is the obscuring filter restricted to one region; `markOne` draws
one region's identity marker. -/
structure Env where
  frames : List Frame
  detectRet : Frame → List Region
  detectHc : Frame → List Region
  embed : Frame → List Region → List Desc
  recognize : List Desc → List Desc → List Bool
  rgbRead : String → Frame
  blurOne : Frame → Region → Frame
  markOne : Frame → Region → Frame

/-- The arguments of `anonymize_vid`.  `known_faces_loc` is `none` when no
gallery directory is supplied, and otherwise carries the directory's recursive
file listing (the paths `rglob` would visit). -/
structure Config where
  src : String
  dst : String
  known_faces_loc : Option (List String)
  use_retinanet : Bool
  batch_size : Nat
  profile : Bool
deriving DecidableEq

/-- Outcome of the gallery-building phase: the reference encodings in effect,
the events it recorded, and the `perform_face_rec` flag. -/
structure GalleryOut where
  encs : List Desc
  events : List Event
  performRec : Bool
deriving DecidableEq

/-- The `for filepath in known_faces:` loop of the source.  Each iteration
reads the image, detects faces, and REASSIGNS `recognized_face_encs` to the
embeddings of this image alone (`recognized_face_encs = embed_face(...)`), as
the source does; the accumulator argument is the value the variable holds so
far and is returned unchanged only when no file remains. -/
def galleryLoop (env : Env) (detect : Frame → List Region) :
    List Desc → List String → List Desc × List Event
  | encs, [] => (encs, [])
  | _, fp :: rest =>
    let face_rgb := env.rgbRead fp
    let face_loc := detect face_rgb
    let encsNew := env.embed face_rgb face_loc
    let t := galleryLoop env detect encsNew rest
    (t.1, Event.embedGallery face_loc.length :: t.2)

/-- Source lines 61-72: filter the listing to `*.jpg` files; warn and leave
`perform_face_rec = False` when none remain; otherwise set the flag and run
the encoding loop. -/
def buildGallery (env : Env) (detect : Frame → List Region)
    (loc : Option (List String)) : GalleryOut :=
  match loc with
  | none => ⟨[], [], false⟩
  | some files =>
    let known_faces := jpgList files
    if known_faces.length = 0 then
      ⟨[], [Event.warnEmptyGallery], false⟩
    else
      let t := galleryLoop env detect [] known_faces
      ⟨t.1, t.2, true⟩

/-- Modelled from the spec: `mark_faces_cv2` (from the `viz` module, which is
not under `src/`).  A visible marker is drawn on each region whose match
result is true; when no match information is available (`None`), no region is
marked. -/
def mark_faces_cv2 (markOne : Frame → Region → Frame) (frame : Frame)
    (regions : List Region) (matched : Option (List Bool)) : Frame :=
  match matched with
  | none => frame
  | some ms => (regions.zip ms).foldl
      (fun f p => if p.2 then markOne f p.1 else f) frame

/-- Modelled from the spec: `blur_faces` (from the `viz` module, which is not
under `src/`).  The obscuring filter is applied to every region whose match
result is false, and to every region when no match information is available
(`None`); an empty regions sequence is a no-op. -/
def blur_faces (blurOne : Frame → Region → Frame) (frame : Frame)
    (regions : List Region) (matched : Option (List Bool)) : Frame :=
  match matched with
  | none => regions.foldl blurOne frame
  | some ms => (regions.zip ms).foldl
      (fun f p => if p.2 then f else blurOne f p.1) frame

/-- One iteration of the processing loop (source lines 81-114) on one decoded
frame: convert to RGB, detect; when faces were found, optionally embed and
match (recording the matcher's gallery argument), then annotate and blur;
convert back and hand the frame to the writer.  Returns the written frame, the
events of the iteration, and whether recognition ran (i.e. whether
`recog_times` would receive an entry under profiling). -/
def frameStep (env : Env) (detect : Frame → List Region) (performRec : Bool)
    (galEncs : List Desc) (frame : Frame) : Frame × List Event × Bool :=
  let rgb := to_rgb frame
  let preds := detect rgb
  if preds.length ≠ 0 then
    if performRec then
      let face_encs := env.embed rgb preds
      let recognized := env.recognize face_encs galEncs
      let rgb1 := mark_faces_cv2 env.markOne rgb preds (some recognized)
      let rgb2 := blur_faces env.blurOne rgb1 preds (some recognized)
      (rgb2bgr rgb2, [Event.embedLoop preds.length, Event.recognizeCall galEncs], true)
    else
      let rgb1 := mark_faces_cv2 env.markOne rgb preds none
      let rgb2 := blur_faces env.blurOne rgb1 preds none
      (rgb2bgr rgb2, [], false)
  else
    (rgb2bgr rgb, [], false)

/-- Accumulated observations of the processing loop: frames written to the
sink in order, events in order, and the indices of the frames that appended an
entry to the `recog_times` accumulator. -/
structure LoopOut where
  written : List Frame
  events : List Event
  recogIdx : List Nat
deriving DecidableEq

/-- The `while cap.isOpened(): ret, frame = cap.read(); ...` loop: one
`frameStep` per decodable frame, in order; under profiling each frame on which
recognition ran contributes its index to the recognition accumulator. -/
def processFrames (env : Env) (detect : Frame → List Region) (performRec : Bool)
    (galEncs : List Desc) (profile : Bool) : Nat → List Frame → LoopOut
  | _, [] => ⟨[], [], []⟩
  | i, f :: rest =>
    let s := frameStep env detect performRec galEncs f
    let t := processFrames env detect performRec galEncs profile (i + 1) rest
    ⟨s.1 :: t.written, s.2.1 ++ t.events,
      (if profile && s.2.2 then [i] else []) ++ t.recogIdx⟩

/-- Source lines 43-47: `detect_fn` is the RetinaNet detector when
`use_retinanet` holds and the Haar-cascade detector otherwise. -/
def detectOf (env : Env) (cfg : Config) : Frame → List Region :=
  if cfg.use_retinanet then env.detectRet else env.detectHc

/-- The gallery produced for a run. -/
def galleryOf (env : Env) (cfg : Config) : GalleryOut :=
  buildGallery env (detectOf env cfg) cfg.known_faces_loc

/-- Everything observable about a successfully validated run. -/
structure RunResult where
  written : List Frame
  events : List Event
  recogIdx : List Nat
  galEncs : List Desc
  performRec : Bool
deriving DecidableEq

/-- The body of `anonymize_vid` after validation succeeded, in source order:
open the capture, create the output directory and the writer, build the
gallery, process every frame, release the capture.  (No release of the writer
appears: the source never calls `out.release()`.) -/
def runModel (env : Env) (cfg : Config) : RunResult :=
  let g := galleryOf env cfg
  let lo := processFrames env (detectOf env cfg) g.performRec g.encs
      cfg.profile 0 env.frames
  ⟨lo.written,
    Event.openCap :: Event.mkdirDst :: Event.openWriter ::
      (g.events ++ lo.events ++ [Event.releaseCap]),
    lo.recogIdx, g.encs, g.performRec⟩

/-- `anonymize_vid` (source lines 17-125): the two extension assertions run
first and abort the run before anything else happens; otherwise the run
proceeds to completion. -/
def anonymize_vid (env : Env) (cfg : Config) : Except String RunResult :=
  if fileExt cfg.src = movExt ∨ fileExt cfg.src = mp4Ext then
    if fileExt cfg.dst = mp4Ext then
      Except.ok (runModel env cfg)
    else
      Except.error dstErrMsg
  else
    Except.error srcErrMsg

/-- Projection of a finished run, with a vacuous default for the error case. -/
def okResult : Except String RunResult → RunResult
  | Except.ok r => r
  | Except.error _ => ⟨[], [], [], [], false⟩

/-- Whether matching runs on a given decoded frame: the gallery must be
present and the detector must report at least one face. -/
def matchingRan (env : Env) (cfg : Config) (f : Frame) : Bool :=
  (galleryOf env cfg).performRec &&
    decide ((detectOf env cfg (to_rgb f)).length ≠ 0)

/-- Pair every frame with its index, starting from a given index. -/
def idxFrom : Nat → List Frame → List (Nat × Frame)
  | _, [] => []
  | i, f :: rest => (i, f) :: idxFrom (i + 1) rest

def frameA : Frame := [[⟨10, 20, 30⟩]]

def frameB : Frame := [[⟨1, 2, 3⟩]]

def frameC : Frame := [[⟨4, 5, 6⟩]]

def frameN : Frame := [[⟨7, 8, 9⟩]]

def region0 : Region := ⟨0, 1, 1, 0⟩

def fileA : String := "a.jpg"

def fileB : String := "b.jpg"

def fileC : String := "c.jpg"

def filePng : String := "x.png"

def fileUpperJpg : String := "a.JPG"

def fileJpeg : String := "b.jpeg"

def srcMp4 : String := "in.mp4"

def srcMov : String := "in.mov"

def srcAvi : String := "in.avi"

def dstMp4 : String := "out.mp4"

def dstUpper : String := "out.MP4"

/-- A concrete world: a one-frame video whose frame contains one detectable
face; gallery images `a.jpg` and `b.jpg` contain one face each, with
descriptors 1 and 2 respectively; image `c.jpg` contains no detectable face;
the query face has descriptor 9. -/
def envFace : Env :=
  { frames := [frameA]
    detectRet := fun f => if f = frameN then [] else [region0]
    detectHc := fun _ => []
    embed := fun f rs =>
      if f = frameB then [1] else if f = frameC then [2] else rs.map (fun _ => 9)
    recognize := fun encs gal => encs.map (fun e => gal.contains e)
    rgbRead := fun s => if s = fileA then frameB else if s = fileB then frameC else frameN
    blurOne := fun _ _ => [[⟨0, 0, 0⟩]]
    markOne := fun f _ => f }

/-- A two-frame video in which no face is ever detected. -/
def envNoFaces : Env :=
  { envFace with frames := [frameA, frameB], detectRet := fun _ => [] }

def cfgTwoJpg : Config :=
  { src := srcMp4, dst := dstMp4, known_faces_loc := some [fileA, fileB],
    use_retinanet := true, batch_size := 1, profile := false }

def cfgNoFaceJpg : Config :=
  { src := srcMp4, dst := dstMp4, known_faces_loc := some [fileC],
    use_retinanet := true, batch_size := 1, profile := false }

def cfgPng : Config :=
  { src := srcMp4, dst := dstMp4, known_faces_loc := some [filePng],
    use_retinanet := true, batch_size := 1, profile := false }

def cfgMixedNonJpg : Config :=
  { src := srcMp4, dst := dstMp4, known_faces_loc := some [fileUpperJpg, fileJpeg, filePng],
    use_retinanet := true, batch_size := 1, profile := false }

def cfgNoGallery : Config :=
  { src := srcMov, dst := dstMp4, known_faces_loc := none,
    use_retinanet := true, batch_size := 1, profile := false }

def cfgProfile : Config :=
  { src := srcMp4, dst := dstMp4, known_faces_loc := some [fileA, fileB],
    use_retinanet := true, batch_size := 1, profile := true }

def cfgAvi : Config :=
  { src := srcAvi, dst := dstMp4, known_faces_loc := none,
    use_retinanet := true, batch_size := 1, profile := false }

def cfgUpperDst : Config :=
  { src := srcMp4, dst := dstUpper, known_faces_loc := none,
    use_retinanet := true, batch_size := 1, profile := false }


theorem swapChannels_swapChannels (p : Pix) : swapChannels (swapChannels p) = p := rfl

theorem map_swap_swap (l : List Pix) : (l.map swapChannels).map swapChannels = l := by
  induction l with
  | nil => rfl
  | cons p t ih => simp [ih, swapChannels_swapChannels]

theorem rgb2bgr_to_rgb (f : Frame) : rgb2bgr (to_rgb f) = f := by
  induction f with
  | nil => rfl
  | cons row rest ih =>
    simp only [to_rgb, rgb2bgr, List.map_cons] at *
    exact congrArg₂ List.cons (map_swap_swap row) ih

theorem anonymize_ok (env : Env) (cfg : Config) (r : RunResult)
    (h : anonymize_vid env cfg = Except.ok r) : r = runModel env cfg := by
  unfold anonymize_vid at h
  split at h
  · split at h
    · exact ((Except.ok.injEq _ _).mp h).symm
    · exact Except.noConfusion h
  · exact Except.noConfusion h

theorem anonymize_valid (env : Env) (cfg : Config)
    (hsrc : fileExt cfg.src = movExt ∨ fileExt cfg.src = mp4Ext)
    (hdst : fileExt cfg.dst = mp4Ext) :
    anonymize_vid env cfg = Except.ok (runModel env cfg) := by
  unfold anonymize_vid
  rw [if_pos hsrc, if_pos hdst]

theorem processFrames_written (env : Env) (d : Frame → List Region) (pr : Bool)
    (g : List Desc) (p : Bool) : ∀ (i : Nat) (fs : List Frame),
    (processFrames env d pr g p i fs).written =
      fs.map (fun f => (frameStep env d pr g f).1) := by
  intro i fs
  induction fs generalizing i with
  | nil => rfl
  | cons f rest ih => simp [processFrames, ih]

theorem run_written_map (env : Env) (cfg : Config) :
    (runModel env cfg).written = env.frames.map
      (fun f => (frameStep env (detectOf env cfg) (galleryOf env cfg).performRec
        (galleryOf env cfg).encs f).1) := by
  simp [runModel, processFrames_written]

theorem frameStep_false (env : Env) (d : Frame → List Region) (g : List Desc) (f : Frame) :
    frameStep env d false g f =
      (rgb2bgr ((d (to_rgb f)).foldl env.blurOne (to_rgb f)), [], false) := by
  unfold frameStep
  by_cases h : (d (to_rgb f)).length ≠ 0
  · simp [h, mark_faces_cv2, blur_faces]
  · have hnil : d (to_rgb f) = [] := List.length_eq_zero.mp (by omega)
    simp [h, hnil]

theorem frameStep_no_preds (env : Env) (d : Frame → List Region) (pr : Bool)
    (g : List Desc) (f : Frame) (hz : d (to_rgb f) = []) :
    (frameStep env d pr g f).1 = f := by
  unfold frameStep
  simp [hz, rgb2bgr_to_rgb]

theorem frameStep_ran (env : Env) (d : Frame → List Region) (pr : Bool)
    (g : List Desc) (f : Frame) :
    (frameStep env d pr g f).2.2 = (pr && decide ((d (to_rgb f)).length ≠ 0)) := by
  unfold frameStep
  by_cases h : (d (to_rgb f)).length ≠ 0
  · cases pr <;> simp [h]
  · cases pr <;> simp [h]


theorem processFrames_false (env : Env) (d : Frame → List Region)
    (g : List Desc) (p : Bool) : ∀ (i : Nat) (fs : List Frame),
    processFrames env d false g p i fs =
      ⟨fs.map (fun f => rgb2bgr ((d (to_rgb f)).foldl env.blurOne (to_rgb f))), [], []⟩ := by
  intro i fs
  induction fs generalizing i with
  | nil => rfl
  | cons f rest ih => simp [processFrames, frameStep_false, ih]

theorem frameStep_events_mem (env : Env) (d : Frame → List Region) (pr : Bool)
    (g : List Desc) (f : Frame) (e : Event) (h : e ∈ (frameStep env d pr g f).2.1) :
    (∃ n, 0 < n ∧ e = Event.embedLoop n) ∨ ∃ gal, e = Event.recognizeCall gal := by
  unfold frameStep at h
  by_cases hl : (d (to_rgb f)).length ≠ 0
  · rw [if_pos hl] at h
    cases pr with
    | true =>
      simp at h
      rcases h with h | h
      · exact Or.inl ⟨_, Nat.pos_of_ne_zero hl, h⟩
      · exact Or.inr ⟨_, h⟩
    | false => simp at h
  · rw [if_neg hl] at h
    simp at h

theorem processFrames_events_mem (env : Env) (d : Frame → List Region) (pr : Bool)
    (g : List Desc) (p : Bool) : ∀ (i : Nat) (fs : List Frame) (e : Event),
    e ∈ (processFrames env d pr g p i fs).events →
      (∃ n, 0 < n ∧ e = Event.embedLoop n) ∨ ∃ gal, e = Event.recognizeCall gal := by
  intro i fs
  induction fs generalizing i with
  | nil => intro e h; simp [processFrames] at h
  | cons f rest ih =>
    intro e h
    simp only [processFrames, List.mem_append] at h
    rcases h with h | h
    · exact frameStep_events_mem env d pr g f e h
    · exact ih (i + 1) e h

theorem galleryLoop_events_mem (env : Env) (d : Frame → List Region) :
    ∀ (files : List String) (encs : List Desc) (e : Event),
    e ∈ (galleryLoop env d encs files).2 → ∃ n, e = Event.embedGallery n := by
  intro files
  induction files with
  | nil => intro encs e h; simp [galleryLoop] at h
  | cons fp rest ih =>
    intro encs e h
    simp only [galleryLoop, List.mem_cons] at h
    rcases h with h | h
    · exact ⟨_, h⟩
    · exact ih _ e h

theorem buildGallery_events_mem (env : Env) (d : Frame → List Region)
    (loc : Option (List String)) (e : Event)
    (h : e ∈ (buildGallery env d loc).events) :
    e = Event.warnEmptyGallery ∨ ∃ n, e = Event.embedGallery n := by
  cases loc with
  | none => simp [buildGallery] at h
  | some files =>
    simp only [buildGallery] at h
    split at h
    · simp at h
      exact Or.inl h
    · exact Or.inr (galleryLoop_events_mem env d _ _ e h)

theorem processFrames_recogIdx (env : Env) (d : Frame → List Region) (pr : Bool)
    (g : List Desc) : ∀ (i : Nat) (fs : List Frame),
    (processFrames env d pr g true i fs).recogIdx =
      ((idxFrom i fs).filter
        (fun q => pr && decide ((d (to_rgb q.2)).length ≠ 0))).map Prod.fst := by
  intro i fs
  induction fs generalizing i with
  | nil => rfl
  | cons f rest ih =>
    simp only [processFrames, idxFrom, List.filter_cons]
    rw [frameStep_ran]
    cases pr with
    | false => simp [ih]
    | true =>
      by_cases hd : (d (to_rgb f)).length ≠ 0
      · simp [hd, ih]
      · simp [hd, ih]

theorem getD_map_frames (F : Frame → Frame) (l : List Frame) (i : Nat)
    (hi : i < l.length) : (l.map F).getD i [] = F (l.getD i []) := by
  induction l generalizing i with
  | nil => simp at hi
  | cons a t ih =>
    cases i with
    | zero => rfl
    | succ n => simpa using ih n (by simpa using hi)

theorem runModel_empty_gallery (env : Env) (cfg : Config) (files : List String)
    (hloc : cfg.known_faces_loc = some files) (hjpg : jpgList files = []) :
    Event.warnEmptyGallery ∈ (runModel env cfg).events ∧
    (∀ gal, Event.recognizeCall gal ∉ (runModel env cfg).events) ∧
    (runModel env cfg).written = env.frames.map (fun f =>
      rgb2bgr ((detectOf env cfg (to_rgb f)).foldl env.blurOne (to_rgb f))) := by
  have hg : galleryOf env cfg = ⟨[], [Event.warnEmptyGallery], false⟩ := by
    simp [galleryOf, buildGallery, hloc, hjpg]
  have hloop := processFrames_false env (detectOf env cfg) ([] : List Desc)
    cfg.profile 0 env.frames
  refine ⟨?_, ?_, ?_⟩
  · simp [runModel, hg, hloop]
  · intro gal
    simp [runModel, hg, hloop]
  · simp [runModel, hg, hloop]


/-- C1: the gallery-building loop reassigns `recognized_face_encs` on every
image, so with two eligible reference images whose faces carry descriptors 1
and 2, the matcher is invoked with only the last image's descriptor list `[2]`
— not with one descriptor per eligible image. -/
theorem gallery_last_image_only :
    anonymize_vid envFace cfgTwoJpg =
        Except.ok (okResult (anonymize_vid envFace cfgTwoJpg)) ∧
    (okResult (anonymize_vid envFace cfgTwoJpg)).galEncs = [2] ∧
    (okResult (anonymize_vid envFace cfgTwoJpg)).galEncs ≠ [1, 2] ∧
    Event.recognizeCall [2] ∈ (okResult (anonymize_vid envFace cfgTwoJpg)).events ∧
    Event.recognizeCall [1, 2] ∉ (okResult (anonymize_vid envFace cfgTwoJpg)).events :=
  ⟨rfl, by decide, by decide, by decide, by decide⟩

/-- C2 counterexample: with a gallery image in which the detector finds no
face, the gallery build invokes the embedder with an empty regions sequence
(an `embedGallery 0` event), refuting the claim for gallery-building calls. -/
theorem embed_called_with_empty_regions_in_gallery :
    anonymize_vid envFace cfgNoFaceJpg =
        Except.ok (okResult (anonymize_vid envFace cfgNoFaceJpg)) ∧
    Event.embedGallery 0 ∈ (okResult (anonymize_vid envFace cfgNoFaceJpg)).events :=
  ⟨rfl, by decide⟩

/-- C2 amended: inside the per-frame loop, every invocation of the embedder
receives a non-empty regions sequence. -/
theorem loop_embed_regions_nonempty (env : Env) (cfg : Config) (r : RunResult)
    (n : Nat) (h : anonymize_vid env cfg = Except.ok r)
    (hmem : Event.embedLoop n ∈ r.events) : 0 < n := by
  have hr := anonymize_ok env cfg r h
  subst hr
  simp only [runModel, List.mem_cons, List.mem_append, List.mem_singleton] at hmem
  rcases hmem with h1 | h1 | h1 | (h1 | h1) | h1 | h1
  · exact Event.noConfusion h1
  · exact Event.noConfusion h1
  · exact Event.noConfusion h1
  · rcases buildGallery_events_mem _ _ _ _ h1 with hw | ⟨m, hm⟩
    · exact Event.noConfusion hw
    · exact Event.noConfusion hm
  · rcases processFrames_events_mem _ _ _ _ _ _ _ _ h1 with ⟨m, hm0, hme⟩ | ⟨gal, hge⟩
    · cases hme
      exact hm0
    · exact Event.noConfusion hge
  · exact Event.noConfusion h1
  · exact absurd h1 (List.not_mem_nil _)

theorem loop_embed_regions_nonempty_witness :
    (anonymize_vid envFace cfgTwoJpg =
        Except.ok (okResult (anonymize_vid envFace cfgTwoJpg)) ∧
      Event.embedLoop 1 ∈ (okResult (anonymize_vid envFace cfgTwoJpg)).events) ∧
    0 < 1 :=
  ⟨⟨rfl, by decide⟩,
    loop_embed_regions_nonempty envFace cfgTwoJpg
      (okResult (anonymize_vid envFace cfgTwoJpg)) 1 rfl (by decide)⟩

/-- C3: every successfully validated run releases the capture but never the
video writer — no `releaseWriter` action exists anywhere in the run's trace,
because the source never calls `out.release()`. -/
theorem writer_never_released (env : Env) (cfg : Config) (r : RunResult)
    (h : anonymize_vid env cfg = Except.ok r) :
    Event.releaseCap ∈ r.events ∧ Event.releaseWriter ∉ r.events := by
  have hr := anonymize_ok env cfg r h
  subst hr
  constructor
  · simp [runModel]
  · intro hmem
    simp only [runModel, List.mem_cons, List.mem_append, List.mem_singleton] at hmem
    rcases hmem with h1 | h1 | h1 | (h1 | h1) | h1 | h1
    · exact Event.noConfusion h1
    · exact Event.noConfusion h1
    · exact Event.noConfusion h1
    · rcases buildGallery_events_mem _ _ _ _ h1 with hw | ⟨m, hm⟩
      · exact Event.noConfusion hw
      · exact Event.noConfusion hm
    · rcases processFrames_events_mem _ _ _ _ _ _ _ _ h1 with ⟨m, _, hme⟩ | ⟨gal, hge⟩
      · exact Event.noConfusion hme
      · exact Event.noConfusion hge
    · exact Event.noConfusion h1
    · exact absurd h1 (List.not_mem_nil _)

theorem writer_never_released_witness :
    anonymize_vid envFace cfgTwoJpg =
        Except.ok (okResult (anonymize_vid envFace cfgTwoJpg)) ∧
    (Event.releaseCap ∈ (okResult (anonymize_vid envFace cfgTwoJpg)).events ∧
      Event.releaseWriter ∉ (okResult (anonymize_vid envFace cfgTwoJpg)).events) :=
  ⟨rfl, writer_never_released envFace cfgTwoJpg
    (okResult (anonymize_vid envFace cfgTwoJpg)) rfl⟩

/-- C4: a successfully validated run writes exactly one output frame per input
frame, with no drops, duplication or reordering: the written sequence is the
input frame sequence mapped, in order, through the per-frame step. -/
theorem frame_count_and_order_preserved (env : Env) (cfg : Config) (r : RunResult)
    (h : anonymize_vid env cfg = Except.ok r) :
    r.written.length = env.frames.length ∧
    r.written = env.frames.map
      (fun f => (frameStep env (detectOf env cfg) (galleryOf env cfg).performRec
        (galleryOf env cfg).encs f).1) := by
  have hr := anonymize_ok env cfg r h
  subst hr
  refine ⟨?_, run_written_map env cfg⟩
  rw [run_written_map]
  exact List.length_map _ _

theorem frame_count_and_order_preserved_witness :
    anonymize_vid envFace cfgTwoJpg =
        Except.ok (okResult (anonymize_vid envFace cfgTwoJpg)) ∧
    ((okResult (anonymize_vid envFace cfgTwoJpg)).written.length =
        envFace.frames.length ∧
      (okResult (anonymize_vid envFace cfgTwoJpg)).written = envFace.frames.map
        (fun f => (frameStep envFace (detectOf envFace cfgTwoJpg)
          (galleryOf envFace cfgTwoJpg).performRec
          (galleryOf envFace cfgTwoJpg).encs f).1)) :=
  ⟨rfl, frame_count_and_order_preserved envFace cfgTwoJpg
    (okResult (anonymize_vid envFace cfgTwoJpg)) rfl⟩

/-- C5 counterexample: `dst = "out.MP4"` has raw extension `"MP4"`, which is
not the string `"mp4"`, so the claim asserts a fatal validation failure; the
code lower-cases the extension, accepts the invocation, and reads and writes a
frame. -/
theorem uppercase_dst_extension_accepted :
    rawExt cfgUpperDst.dst ≠ mp4Ext ∧
    anonymize_vid envFace cfgUpperDst =
        Except.ok (okResult (anonymize_vid envFace cfgUpperDst)) ∧
    (okResult (anonymize_vid envFace cfgUpperDst)).written.length = 1 :=
  ⟨by decide, rfl, by decide⟩

/-- C5 amended: whenever the lower-cased src extension is neither `mov` nor
`mp4`, or the lower-cased dst extension is not `mp4`, the run aborts with an
error before any processing: no run result (no frame read, no directory or
output file created) is produced. -/
theorem invalid_extensions_abort (env : Env) (cfg : Config)
    (hbad : ¬(fileExt cfg.src = movExt ∨ fileExt cfg.src = mp4Ext) ∨
      ¬(fileExt cfg.dst = mp4Ext)) :
    ∃ msg, anonymize_vid env cfg = Except.error msg := by
  unfold anonymize_vid
  rcases hbad with hb | hb
  · rw [if_neg hb]
    exact ⟨_, rfl⟩
  · by_cases hs : fileExt cfg.src = movExt ∨ fileExt cfg.src = mp4Ext
    · rw [if_pos hs, if_neg hb]
      exact ⟨_, rfl⟩
    · rw [if_neg hs]
      exact ⟨_, rfl⟩

theorem invalid_extensions_abort_witness :
    (¬(fileExt cfgAvi.src = movExt ∨ fileExt cfgAvi.src = mp4Ext)) ∧
    ∃ msg, anonymize_vid envFace cfgAvi = Except.error msg :=
  ⟨by decide, invalid_extensions_abort envFace cfgAvi (Or.inl (by decide))⟩


/-- C6: with a supplied gallery directory containing no eligible images, the
run still succeeds: the empty-gallery warning is recorded, the matcher is
never invoked on any frame, and every written frame is the decoded frame with
the obscuring filter folded over ALL detected regions (every detected face is
treated as unmatched and blurred). -/
theorem empty_gallery_warns_and_blurs_all (env : Env) (cfg : Config)
    (files : List String)
    (hsrc : fileExt cfg.src = movExt ∨ fileExt cfg.src = mp4Ext)
    (hdst : fileExt cfg.dst = mp4Ext)
    (hloc : cfg.known_faces_loc = some files)
    (hjpg : jpgList files = []) :
    ∃ r, anonymize_vid env cfg = Except.ok r ∧
      Event.warnEmptyGallery ∈ r.events ∧
      (∀ gal, Event.recognizeCall gal ∉ r.events) ∧
      r.written = env.frames.map (fun f =>
        rgb2bgr ((detectOf env cfg (to_rgb f)).foldl env.blurOne (to_rgb f))) := by
  obtain ⟨h1, h2, h3⟩ := runModel_empty_gallery env cfg files hloc hjpg
  exact ⟨runModel env cfg, anonymize_valid env cfg hsrc hdst, h1, h2, h3⟩

theorem empty_gallery_warns_and_blurs_all_witness :
    ((fileExt cfgPng.src = movExt ∨ fileExt cfgPng.src = mp4Ext) ∧
      fileExt cfgPng.dst = mp4Ext ∧
      cfgPng.known_faces_loc = some [filePng] ∧ jpgList [filePng] = []) ∧
    (∃ r, anonymize_vid envFace cfgPng = Except.ok r ∧
      Event.warnEmptyGallery ∈ r.events ∧
      (∀ gal, Event.recognizeCall gal ∉ r.events) ∧
      r.written = envFace.frames.map (fun f =>
        rgb2bgr ((detectOf envFace cfgPng (to_rgb f)).foldl envFace.blurOne
          (to_rgb f)))) :=
  ⟨⟨by decide, by decide, rfl, by decide⟩,
    empty_gallery_warns_and_blurs_all envFace cfgPng [filePng]
      (by decide) (by decide) rfl (by decide)⟩

/-- C7: output frame count always equals input frame count, and every frame on
which the detector reports zero regions is written pixel-identical to the
frame that was read: the conversion to RGB and back is an exact round trip and
no annotation or blur touches the frame. -/
theorem zero_detection_frame_unchanged (env : Env) (cfg : Config) (r : RunResult)
    (h : anonymize_vid env cfg = Except.ok r) :
    r.written.length = env.frames.length ∧
    ∀ i, i < env.frames.length →
      detectOf env cfg (to_rgb (env.frames.getD i [])) = [] →
      r.written.getD i [] = env.frames.getD i [] := by
  have hr := anonymize_ok env cfg r h
  subst hr
  rw [run_written_map]
  refine ⟨List.length_map _ _, ?_⟩
  intro i hi hz
  rw [getD_map_frames _ _ _ hi]
  exact frameStep_no_preds env (detectOf env cfg) _ _ _ hz

theorem zero_detection_frame_unchanged_witness :
    anonymize_vid envNoFaces cfgNoGallery =
        Except.ok (okResult (anonymize_vid envNoFaces cfgNoGallery)) ∧
    (okResult (anonymize_vid envNoFaces cfgNoGallery)).written.getD 0 [] =
      envNoFaces.frames.getD 0 [] :=
  ⟨rfl, (zero_detection_frame_unchanged envNoFaces cfgNoGallery
    (okResult (anonymize_vid envNoFaces cfgNoGallery)) rfl).2 0
      (by decide) (by decide)⟩

/-- C8: under profiling, the recognition-time accumulator receives exactly one
entry per frame on which matching actually ran — the frames with a present
gallery and at least one detected face — and no entry for any other frame. -/
theorem recog_accumulator_only_matching_frames (env : Env) (cfg : Config)
    (r : RunResult) (h : anonymize_vid env cfg = Except.ok r)
    (hp : cfg.profile = true) :
    r.recogIdx = ((idxFrom 0 env.frames).filter
      (fun q => matchingRan env cfg q.2)).map Prod.fst := by
  have hr := anonymize_ok env cfg r h
  subst hr
  show (runModel env cfg).recogIdx = _
  simp only [runModel]
  rw [hp, processFrames_recogIdx]
  simp [matchingRan]

theorem recog_accumulator_only_matching_frames_witness :
    (anonymize_vid envFace cfgProfile =
        Except.ok (okResult (anonymize_vid envFace cfgProfile)) ∧
      cfgProfile.profile = true) ∧
    (okResult (anonymize_vid envFace cfgProfile)).recogIdx =
      ((idxFrom 0 envFace.frames).filter
        (fun q => matchingRan envFace cfgProfile q.2)).map Prod.fst :=
  ⟨⟨rfl, rfl⟩, recog_accumulator_only_matching_frames envFace cfgProfile
    (okResult (anonymize_vid envFace cfgProfile)) rfl rfl⟩

/-- C9: `batch_size` is accepted but never read by the body: two runs that are
identical except for `batch_size` produce identical results, in particular the
same written frame sequence. -/
theorem batch_size_irrelevant (env : Env) (cfg : Config) (b bb : Nat) :
    anonymize_vid env { cfg with batch_size := b } =
      anonymize_vid env { cfg with batch_size := bb } := rfl

/-- C10: eligibility is exactly the case-sensitive suffix ".jpg" on the
recursively listed gallery paths: a gallery whose listing contains no path
ending in lowercase ".jpg" behaves exactly like an empty gallery directory —
the identical run result, with the warning recorded and every detected region
of every frame blurred. -/
theorem only_lowercase_jpg_eligible (env : Env) (cfg : Config)
    (files : List String) (hloc : cfg.known_faces_loc = some files)
    (hnojpg : ∀ f ∈ files, jpgSuffix.data.isSuffixOf f.data = false) :
    anonymize_vid env cfg =
      anonymize_vid env { cfg with known_faces_loc := some [] } ∧
    ∀ r, anonymize_vid env cfg = Except.ok r →
      Event.warnEmptyGallery ∈ r.events ∧
      r.written = env.frames.map (fun f =>
        rgb2bgr ((detectOf env cfg (to_rgb f)).foldl env.blurOne (to_rgb f))) := by
  have hjpg : jpgList files = [] := by
    apply List.filter_eq_nil_iff.mpr
    intro a ha
    simp [hnojpg a ha]
  constructor
  · have hg : galleryOf env cfg = ⟨[], [Event.warnEmptyGallery], false⟩ := by
      simp [galleryOf, buildGallery, hloc, hjpg]
    have hg2 : galleryOf env { cfg with known_faces_loc := some [] } =
        ⟨[], [Event.warnEmptyGallery], false⟩ := by
      simp [galleryOf, buildGallery, jpgList]
    have hrm : runModel env cfg =
        runModel env { cfg with known_faces_loc := some [] } := by
      simp only [runModel]
      rw [hg, hg2]
      rfl
    have hsrcE : fileExt ({ cfg with known_faces_loc := some [] } : Config).src =
        fileExt cfg.src := rfl
    have hdstE : fileExt ({ cfg with known_faces_loc := some [] } : Config).dst =
        fileExt cfg.dst := rfl
    unfold anonymize_vid
    rw [hsrcE, hdstE, hrm]
  · intro r h
    have hr := anonymize_ok env cfg r h
    subst hr
    obtain ⟨h1, _, h3⟩ := runModel_empty_gallery env cfg files hloc hjpg
    exact ⟨h1, h3⟩

theorem only_lowercase_jpg_eligible_witness :
    anonymize_vid envFace cfgMixedNonJpg =
      anonymize_vid envFace { cfgMixedNonJpg with known_faces_loc := some [] } ∧
    Event.warnEmptyGallery ∈ (okResult (anonymize_vid envFace cfgMixedNonJpg)).events :=
  ⟨(only_lowercase_jpg_eligible envFace cfgMixedNonJpg
      [fileUpperJpg, fileJpeg, filePng] rfl (by decide)).1,
    ((only_lowercase_jpg_eligible envFace cfgMixedNonJpg
      [fileUpperJpg, fileJpeg, filePng] rfl (by decide)).2
      (okResult (anonymize_vid envFace cfgMixedNonJpg)) rfl).1⟩

end AutoAnonymize
